import Mathlib

/-!
Verification of the massa-sc-runtime ABI core: gas ledger (src/env/mod.rs),
ABI dispatch surface and inter-contract call protocol (src/abi_impl.rs),
shallowly embedded in Lean. Machine integers are modelled as `Nat`/`Int`
with explicit range reasoning; fallible host code returns `Except String`
(mirroring `ABIResult` / `wasmer::RuntimeError` carrying a message).
Stateful functions thread an explicit `Env` and always return the resulting
state, so that state on an error path is the state at the point of the
early return (`abi_bail!`).
-/

namespace Massa

/-- A wasmer `Value` stored in a `Global`. The metering globals hold either
an `I32` (the exhaustion flag, payload a signed 32-bit value modelled as
`Int`) or an `I64` (the remaining points; stored from and read back to
`u64`, whose round trip through `i64` is the identity, so the payload is
modelled directly as the `u64` value, a `Nat`). `try_into::<i32>` succeeds
exactly on `I32`, `try_into::<u64>` exactly on `I64`. -/
inductive WValue where
  | I32 (v : Int)
  | I64 (v : Nat)
deriving DecidableEq

/-- `types::Response`: result of a nested call (return string plus the
callee's leftover gas). -/
structure Response where
  ret : String
  remaining_gas : Nat
deriving DecidableEq

/-- Observable invocation of an abstract `Interface` method, logged exactly
where the dispatch code performs `env.interface.method(...)`. -/
inductive IfaceCall where
  | init_call (address : String) (coins : Nat)
  | finish_call
  | transfer_coins (to_addr : String) (amount : Nat)
  | transfer_coins_for (from_addr to_addr : String) (amount : Nat)
  | create_module (bytecode : List Nat)
  | raw_set_data (key : String) (value : List Nat)
  | send_message (target_addr handler : String)
      (validity_start validity_end : Nat × Nat)
      (max_gas gas_price coins : Nat) (data : List Nat)
deriving DecidableEq

/-- The abstract ledger capability (`dyn Interface`), restricted to the
methods used by the embedded dispatch functions. Each method is an external
collaborator modelled as a deterministic oracle returning success or a
domain-error message. -/
structure Interface where
  init_call : String → Nat → Except String String
  finish_call : Unit → Except String Unit
  transfer_coins : String → Nat → Except String Unit
  transfer_coins_for : String → String → Nat → Except String Unit
  create_module : List Nat → Except String String
  raw_set_data : String → List Nat → Except String Unit
  send_message : String → String → Nat × Nat → Nat × Nat →
      Nat → Nat → Nat → List Nat → Except String Unit

/-- Guest linear memory, abstracted to the strings readable at each offset
(`StringPtr::new(off).read(memory)` succeeds exactly on recorded offsets). -/
abbrev Memory := List (Nat × String)

/-- `ASEnv` (src/env/as_env.rs): guest memory handle (absent until the
wasm env is initialized), the owned `Interface`, and the two lazily bound
metering globals (absent until `init_with_instance`). -/
structure Env where
  wasm_memory : Option Memory
  interface : Interface
  remaining_points : Option WValue
  exhausted_points : Option WValue

/-- `get_remaining_points` (src/env/mod.rs lines 31-47): checks
`exhausted_points` first — if it decodes as a positive `i32`, the effective
remaining budget is `0` unconditionally; only otherwise is
`remaining_points` read and decoded as `u64`. -/
def get_remaining_points (env : Env) : Except String Nat :=
  match env.exhausted_points with
  | none => .error "Lost reference to exhausted_points"
  | some (.I64 _) => .error "exhausted_points has wrong type"
  | some (.I32 exhausted) =>
    if 0 < exhausted then .ok 0
    else
      match env.remaining_points with
      | none => .error "Lost reference to remaining_points"
      | some (.I32 _) => .error "remaining_points has wrong type"
      | some (.I64 remaining) => .ok remaining

/-- `set_remaining_points` (src/env/mod.rs lines 52-73): writes `points`
into `remaining_points`, then writes `0i32` into `exhausted_points`
(clearing exhaustion). `Global::set` on the bound, mutable metering globals
with a matching value type always succeeds, so the `abi_bail` branches on a
failed `set` are not reachable in this model; a missing global still bails,
and bailing between the two writes leaves the first write in place. -/
def set_remaining_points (env : Env) (points : Nat) :
    Except String Unit × Env :=
  match env.remaining_points with
  | none => (.error "Lost reference to remaining_points", env)
  | some _ =>
    let env1 := { env with remaining_points := some (.I64 points) }
    match env1.exhausted_points with
    | none => (.error "Lost reference to exhausted_points", env1)
    | some _ => (.ok (), { env1 with exhausted_points := some (.I32 0) })

/-- `sub_remaining_gas` (src/env/mod.rs lines 75-83):
`remaining.checked_sub(gas)` — `None` exactly when `gas > remaining` — then
writes back via `set_remaining_points` on success, or bails with
"Remaining gas reach zero" without any write on underflow. -/
def sub_remaining_gas (env : Env) (gas : Nat) : Except String Unit × Env :=
  match get_remaining_points env with
  | .error e => (.error e, env)
  | .ok remaining =>
    if gas ≤ remaining then set_remaining_points env (remaining - gas)
    else (.error "Remaining gas reach zero", env)

/-- The overflow message `format!("Multiplication overflow {a} {b}")`. -/
def overflow_msg (a b : Nat) : String :=
  "Multiplication overflow " ++ toString a ++ " " ++ toString b

/-- `sub_remaining_gas_with_mult` (src/env/mod.rs lines 87-96):
`a.checked_mul(b)` on `usize` (64-bit on supported targets) — `None`
exactly when `a * b ≥ 2^64` — then delegates the product to
`sub_remaining_gas`; on overflow it bails with a distinct message and
touches nothing. -/
def sub_remaining_gas_with_mult (env : Env) (a b : Nat) :
    Except String Unit × Env :=
  if a * b < 2 ^ 64 then sub_remaining_gas env (a * b)
  else (.error (overflow_msg a b), env)

/-- Concrete interface oracle for witnesses. -/
def iface0 : Interface where
  init_call := fun _ _ => .ok "module0"
  finish_call := fun _ => .ok ()
  transfer_coins := fun _ _ => .ok ()
  transfer_coins_for := fun _ _ _ => .ok ()
  create_module := fun _ => .ok "A12newAddr"
  raw_set_data := fun _ _ => .ok ()
  send_message := fun _ _ _ _ _ _ _ _ => .ok ()

/-- Concrete guest memory for witnesses: an empty string at offset 5 and
two addresses at offsets 7 and 9. -/
def mem0 : Memory := [(5, ""), (7, "A12from"), (9, "A12to")]

/-- A bound environment with 100 remaining gas units and a clear flag. -/
def env100 : Env := ⟨some mem0, iface0, some (.I64 100), some (.I32 0)⟩

/-- A bound environment with 0 remaining gas units and a clear flag. -/
def envZero : Env := ⟨some mem0, iface0, some (.I64 0), some (.I32 0)⟩

/-- A bound environment with stored remaining 7 but the sticky exhaustion
flag set. -/
def envExh : Env := ⟨some mem0, iface0, some (.I64 7), some (.I32 1)⟩

/-- The guest pointer cast `ptr as u32` applied to an `i32`. -/
def u32_of_i32 (x : Int) : Nat := (x % (2 ^ 32 : Int)).toNat

/-- `StringPtr::new(offset).read(memory)` (external as_ffi_bindings crate):
decodes the length-prefixed UTF-8 string at a guest-memory offset, failing
on an unreadable offset. -/
def read_string_ptr (mem : Memory) (offset : Nat) : Except String String :=
  match mem.lookup offset with
  | some s => .ok s
  | none => .error "StringPtr read failed"

/-- `get_string` (src/abi_impl.rs lines 655-660): reads the string at a
guest pointer, charging nothing. -/
def get_string (memory : Memory) (ptr : Int) : Except String String :=
  read_string_ptr memory (u32_of_i32 ptr)

/-- `str::as_bytes`: the UTF-8 bytes of a string. -/
def asBytes (s : String) : List Nat := s.toUTF8.toList.map UInt8.toNat

/-- Modelled from the spec: per-operation constant and per-byte rates are
injected configuration (`crate::settings`, not under src/), so every
dispatch function is parameterized over them. -/
structure Settings where
  metering_transfer : Nat
  metering_set_data_const : Nat
  metering_set_data_key_mult : Nat
  metering_set_data_value_mult : Nat
  metering_create_sc_mult : Nat
  metering_send_message : Nat

/-- External collaborators of the dispatch surface that are not repository
code: the base64 crate decoder, and the guest allocator behind
`StringPtr::alloc` (as_ffi_bindings crate) returning the offset of a fresh
guest allocation. -/
structure Externals where
  base64_decode : String → Except String (List Nat)
  string_ptr_alloc : String → Except String Nat

/-- `read_string_and_sub_gas` (src/abi_impl.rs lines 639-652): reads the
string at the offset, then charges `len * mult` via
`sub_remaining_gas_with_mult` — `len` being the true byte length
(`String::len`) of the decoded string. -/
def read_string_and_sub_gas (env : Env) (memory : Memory) (offset : Int)
    (mult : Nat) : Except String String × Env :=
  match read_string_ptr memory (u32_of_i32 offset) with
  | .error e => (.error e, env)
  | .ok value =>
    match sub_remaining_gas_with_mult env value.utf8ByteSize mult with
    | (.ok _, env1) => (.ok value, env1)
    | (.error e, env1) => (.error e, env1)

/-- `assembly_script_transfer_coins` (src/abi_impl.rs lines 87-102):
charges the constant transfer cost, rejects a negative raw amount, reads
the target address, then calls `Interface::transfer_coins` with the amount
widened to unsigned. Returns the result, the final environment, and the
Interface calls performed. -/
def assembly_script_transfer_coins (s : Settings) (env : Env)
    (to_address raw_amount : Int) :
    Except String Unit × Env × List IfaceCall :=
  match sub_remaining_gas env s.metering_transfer with
  | (.error e, env1) => (.error e, env1, [])
  | (.ok _, env1) =>
    if raw_amount < 0 then (.error "Negative raw amount.", env1, [])
    else
      match env1.wasm_memory with
      | none => (.error "uninitialized memory", env1, [])
      | some memory =>
        match get_string memory to_address with
        | .error e => (.error e, env1, [])
        | .ok toAddr =>
          match env1.interface.transfer_coins toAddr raw_amount.toNat with
          | .ok _ => (.ok (), env1, [.transfer_coins toAddr raw_amount.toNat])
          | .error e =>
            (.error e, env1, [.transfer_coins toAddr raw_amount.toNat])

/-- `assembly_script_transfer_coins_for` (src/abi_impl.rs lines 105-125):
as `transfer_coins`, with an explicit source address read before the
target. -/
def assembly_script_transfer_coins_for (s : Settings) (env : Env)
    (from_address to_address raw_amount : Int) :
    Except String Unit × Env × List IfaceCall :=
  match sub_remaining_gas env s.metering_transfer with
  | (.error e, env1) => (.error e, env1, [])
  | (.ok _, env1) =>
    if raw_amount < 0 then (.error "Negative raw amount.", env1, [])
    else
      match env1.wasm_memory with
      | none => (.error "uninitialized memory", env1, [])
      | some memory =>
        match get_string memory from_address with
        | .error e => (.error e, env1, [])
        | .ok fromAddr =>
          match get_string memory to_address with
          | .error e => (.error e, env1, [])
          | .ok toAddr =>
            match env1.interface.transfer_coins_for fromAddr toAddr
                raw_amount.toNat with
            | .ok _ =>
              (.ok (), env1,
                [.transfer_coins_for fromAddr toAddr raw_amount.toNat])
            | .error e =>
              (.error e, env1,
                [.transfer_coins_for fromAddr toAddr raw_amount.toNat])

/-- `assembly_script_set_data` (src/abi_impl.rs lines 230-240): charges the
constant cost, reads and charges key and value at their per-byte rates,
then upserts via `Interface::raw_set_data`. -/
def assembly_script_set_data (s : Settings) (env : Env) (key value : Int) :
    Except String Unit × Env × List IfaceCall :=
  match sub_remaining_gas env s.metering_set_data_const with
  | (.error e, env1) => (.error e, env1, [])
  | (.ok _, env1) =>
    match env1.wasm_memory with
    | none => (.error "uninitialized memory", env1, [])
    | some memory =>
      match read_string_and_sub_gas env1 memory key
          s.metering_set_data_key_mult with
      | (.error e, env2) => (.error e, env2, [])
      | (.ok keyStr, env2) =>
        match read_string_and_sub_gas env2 memory value
            s.metering_set_data_value_mult with
        | (.error e, env3) => (.error e, env3, [])
        | (.ok valueStr, env3) =>
          match env3.interface.raw_set_data keyStr (asBytes valueStr) with
          | .ok _ => (.ok (), env3, [.raw_set_data keyStr (asBytes valueStr)])
          | .error e =>
            (.error e, env3, [.raw_set_data keyStr (asBytes valueStr)])

/-- `create_sc` (src/abi_impl.rs lines 145-150): forwards the decoded
bytecode to `Interface::create_module`, returning the fresh address. -/
def create_sc (env : Env) (bytecode : List Nat) :
    Except String String × List IfaceCall :=
  match env.interface.create_module bytecode with
  | .ok address => (.ok address, [.create_module bytecode])
  | .error e => (.error e, [.create_module bytecode])

/-- `assembly_script_create_sc` (src/abi_impl.rs lines 196-216): reads the
base64 bytecode string — charging only `len * metering_create_sc_mult`; no
constant cost is charged anywhere in this function — decodes it, forwards
to `create_sc`, and allocates the returned address into guest memory. -/
def assembly_script_create_sc (ext : Externals) (s : Settings) (env : Env)
    (bytecode : Int) : Except String Int × Env × List IfaceCall :=
  match env.wasm_memory with
  | none => (.error "uninitialized memory", env, [])
  | some memory =>
    match read_string_and_sub_gas env memory bytecode
        s.metering_create_sc_mult with
    | (.error e, env1) => (.error e, env1, [])
    | (.ok b64, env1) =>
      match ext.base64_decode b64 with
      | .error e => (.error e, env1, [])
      | .ok bytes =>
        match create_sc env1 bytes with
        | (.error e, tr) => (.error e, env1, tr)
        | (.ok address, tr) =>
          match ext.string_ptr_alloc address with
          | .ok off => (.ok (Int.ofNat off), env1, tr)
          | .error e => (.error e, env1, tr)

/-- `assembly_script_send_message` (src/abi_impl.rs lines 495-548): charges
the constant cost, converts the validity bounds — `i64 → u64` fails
exactly on negative periods, `i32 → u8` fails exactly outside `0..=255`,
with the period error taking precedence inside each pair — validates the
remaining signed amounts, then reads the strings and forwards to
`Interface::send_message`. -/
def assembly_script_send_message (s : Settings) (env : Env)
    (target_address target_handler : Int)
    (validity_start_period validity_start_thread : Int)
    (validity_end_period validity_end_thread : Int)
    (max_gas gas_price raw_coins : Int) (data : Int) :
    Except String Unit × Env × List IfaceCall :=
  match sub_remaining_gas env s.metering_send_message with
  | (.error e, env1) => (.error e, env1, [])
  | (.ok _, env1) =>
    if validity_start_period < 0 then
      (.error "negative validity start period", env1, [])
    else if validity_start_thread < 0 ∨ 255 < validity_start_thread then
      (.error "invalid validity start thread", env1, [])
    else if validity_end_period < 0 then
      (.error "negative validity end period", env1, [])
    else if validity_end_thread < 0 ∨ 255 < validity_end_thread then
      (.error "invalid validity end thread", env1, [])
    else if max_gas < 0 then (.error "negative max gas", env1, [])
    else if gas_price < 0 then (.error "negative gas price", env1, [])
    else if raw_coins < 0 then (.error "negative coins", env1, [])
    else
      match env1.wasm_memory with
      | none => (.error "uninitialized memory", env1, [])
      | some memory =>
        match get_string memory target_address with
        | .error e => (.error e, env1, [])
        | .ok ta =>
          match get_string memory target_handler with
          | .error e => (.error e, env1, [])
          | .ok th =>
            match get_string memory data with
            | .error e => (.error e, env1, [])
            | .ok d =>
              match env1.interface.send_message ta th
                  (validity_start_period.toNat, validity_start_thread.toNat)
                  (validity_end_period.toNat, validity_end_thread.toNat)
                  max_gas.toNat gas_price.toNat raw_coins.toNat
                  (asBytes d) with
              | .ok _ =>
                (.ok (), env1,
                  [.send_message ta th
                    (validity_start_period.toNat, validity_start_thread.toNat)
                    (validity_end_period.toNat, validity_end_thread.toNat)
                    max_gas.toNat gas_price.toNat raw_coins.toNat
                    (asBytes d)])
              | .error e =>
                (.error e, env1,
                  [.send_message ta th
                    (validity_start_period.toNat, validity_start_thread.toNat)
                    (validity_end_period.toNat, validity_end_thread.toNat)
                    max_gas.toNat gas_price.toNat raw_coins.toNat
                    (asBytes d)])

/-- Modelled from the spec: the external interpreter
(`execution_impl::exec`, not under src/) runs the resolved module to
completion with the gas budget it is handed and returns a `Response` whose
leftover gas never exceeds that budget. -/
def InterpSpec
    (ex : Nat → String → String → String → Except String Response) : Prop :=
  ∀ gas moduleBc func param resp, ex gas moduleBc func param = .ok resp →
    resp.remaining_gas ≤ gas

/-- `call_module` (src/abi_impl.rs lines 41-75): rejects negative coins,
resolves the module via `Interface::init_call`, hands the external
interpreter the caller's current remaining gas read live from the gas
ledger (there is no guest-supplied cap in the signature), writes the
Response's leftover gas back into the ledger, then pops the frame via
`Interface::finish_call`, whose failure is reported even though execution
completed. The interpreter is the external collaborator
`execution_impl::exec`, passed as a parameter. -/
def call_module
    (ex : Nat → String → String → String → Except String Response)
    (env : Env) (address func param : String) (raw_coins : Int) :
    Except String Response × Env × List IfaceCall :=
  if raw_coins < 0 then (.error "negative amount of coins in Call", env, [])
  else
    match env.interface.init_call address raw_coins.toNat with
    | .error e => (.error e, env, [.init_call address raw_coins.toNat])
    | .ok moduleBc =>
      match get_remaining_points env with
      | .error e => (.error e, env, [.init_call address raw_coins.toNat])
      | .ok gas =>
        match ex gas moduleBc func param with
        | .error e => (.error e, env, [.init_call address raw_coins.toNat])
        | .ok resp =>
          match set_remaining_points env resp.remaining_gas with
          | (.error e, env1) =>
            (.error e, env1, [.init_call address raw_coins.toNat])
          | (.ok _, env1) =>
            match env1.interface.finish_call () with
            | .ok _ =>
              (.ok resp, env1,
                [.init_call address raw_coins.toNat, .finish_call])
            | .error e =>
              (.error e, env1,
                [.init_call address raw_coins.toNat, .finish_call])

/-- Concrete settings for witnesses: every constant cost and per-byte rate
is 1. -/
def settings1 : Settings := ⟨1, 1, 1, 1, 1, 1⟩

/-- Concrete externals for witnesses: a base64 decoder defined on the empty
string, an allocator always returning offset 1000. -/
def ext0 : Externals where
  base64_decode := fun s => if s = "" then .ok [] else .error "invalid base64"
  string_ptr_alloc := fun _ => .ok 1000

/-- Concrete interpreter for witnesses: returns an empty string and half
the gas it was given. -/
def exec0 : Nat → String → String → String → Except String Response :=
  fun gas _ _ _ => .ok ⟨"", gas / 2⟩

/-- The environment `env100` after a successful charge of 1 gas unit. -/
def env99 : Env := ⟨some mem0, iface0, some (.I64 99), some (.I32 0)⟩

/-- If `get_remaining_points` succeeds, the exhaustion global is bound and
holds an `I32`. -/
theorem get_remaining_points_ok_exhausted (env : Env) (r : Nat)
    (hg : get_remaining_points env = .ok r) :
    ∃ e : Int, env.exhausted_points = some (.I32 e) := by
  unfold get_remaining_points at hg
  rcases hxp : env.exhausted_points with _ | v
  · simp [hxp] at hg
  · rcases v with e | n
    · exact ⟨e, rfl⟩
    · simp [hxp] at hg

/-- On a bound environment with effective remaining `r`, a charge
`gas ≤ r` succeeds and leaves remaining `r - gas` with the flag cleared. -/
theorem sub_remaining_gas_ok (env : Env) (r gas : Nat)
    (hg : get_remaining_points env = .ok r) (hle : gas ≤ r)
    (hb : env.remaining_points.isSome) :
    sub_remaining_gas env gas =
      (.ok (), { env with remaining_points := some (.I64 (r - gas)),
                          exhausted_points := some (.I32 0) }) := by
  obtain ⟨w, hw⟩ := Option.isSome_iff_exists.mp hb
  obtain ⟨e, he⟩ := get_remaining_points_ok_exhausted env r hg
  simp [sub_remaining_gas, hg, hle, set_remaining_points, hw, he]

/-- `exec0` satisfies the interpreter specification. -/
theorem exec0_spec : InterpSpec exec0 := by
  intro gas moduleBc func param resp h
  injection h with h1
  subst h1
  exact Nat.div_le_self gas 2

/-- C3: for every bound environment, `get_remaining` returns 0 whenever the
`exhausted_points` global is positive, regardless of the stored
`remaining_points` value (even absent or wrongly typed, showing the
exhaustion check precedes any read of `remaining_points`); only when
exhaustion is not positive is the stored `remaining_points` value
returned. -/
theorem C3_sticky_exhaustion (env : Env) (e : Int)
    (he : env.exhausted_points = some (.I32 e)) :
    (0 < e → get_remaining_points env = .ok 0) ∧
    (e ≤ 0 → ∀ r : Nat, env.remaining_points = some (.I64 r) →
      get_remaining_points env = .ok r) := by
  constructor
  · intro hpos
    simp [get_remaining_points, he, hpos]
  · intro hle r hr
    have : ¬ 0 < e := not_lt.mpr hle
    simp [get_remaining_points, he, hr, this]

/-- Witness for C3 on the concrete exhausted environment `envExh`
(stored remaining 7, flag 1) and on `env100` (flag 0). -/
theorem C3_sticky_exhaustion_witness :
    get_remaining_points envExh = .ok 0 ∧
    get_remaining_points env100 = .ok 100 := by
  constructor
  · exact (C3_sticky_exhaustion envExh 1 rfl).1 (by norm_num)
  · exact (C3_sticky_exhaustion env100 0 rfl).2 (le_refl 0) 100 rfl

/-- C4: for a bound environment with effective remaining budget `r` and any
charge `v`: if `v ≤ r` the subtraction succeeds and a following
`get_remaining` returns `r - v`; if `v > r` it fails with the exhaustion
error and leaves the environment (hence the remaining budget) unchanged. -/
theorem C4_subtract_semantics (env : Env) (r v : Nat)
    (hg : get_remaining_points env = .ok r)
    (hb : env.remaining_points.isSome) :
    (v ≤ r →
      (sub_remaining_gas env v).1 = .ok () ∧
      get_remaining_points (sub_remaining_gas env v).2 = .ok (r - v)) ∧
    (r < v →
      sub_remaining_gas env v = (.error "Remaining gas reach zero", env)) := by
  obtain ⟨w, hw⟩ := Option.isSome_iff_exists.mp hb
  constructor
  · intro hle
    simp only [sub_remaining_gas, hg, if_pos hle]
    have he : ∃ e : Int, env.exhausted_points = some (.I32 e) := by
      unfold get_remaining_points at hg
      rcases hxp : env.exhausted_points with _ | v'
      · simp [hxp] at hg
      · rcases v' with e | n
        · exact ⟨e, rfl⟩
        · simp [hxp] at hg
    obtain ⟨e, he⟩ := he
    simp [set_remaining_points, hw, he, get_remaining_points]
  · intro hlt
    simp [sub_remaining_gas, hg, Nat.not_le.mpr hlt, not_le.mpr hlt]

/-- Witness for C4 at `env100` (budget 100): charging 30 leaves 70;
charging 101 fails and leaves the environment untouched. -/
theorem C4_subtract_semantics_witness :
    ((sub_remaining_gas env100 30).1 = .ok () ∧
      get_remaining_points (sub_remaining_gas env100 30).2 = .ok 70) ∧
    sub_remaining_gas env100 101 =
      (.error "Remaining gas reach zero", env100) := by
  constructor
  · exact (C4_subtract_semantics env100 100 30 rfl rfl).1 (by norm_num)
  · exact (C4_subtract_semantics env100 100 101 rfl rfl).2 (by norm_num)

/-- The overflow message always starts with the character M, so it is
distinct from the exhaustion message "Remaining gas reach zero". -/
theorem overflow_msg_ne (a b : Nat) :
    overflow_msg a b ≠ "Remaining gas reach zero" := by
  intro h
  have h1 : (overflow_msg a b).data.take 1 = ['M'] := rfl
  rw [h] at h1
  exact absurd h1 (by decide)

/-- C5: whenever the product `a * b` exceeds the representable `usize`
range, `subtract_with_mult` fails with the overflow error — distinct from
the exhaustion error — and does not mutate the gas counter (the environment
is returned unchanged); otherwise it delegates the product to
`subtract`. -/
theorem C5_mult_overflow (env : Env) (a b : Nat) :
    (2 ^ 64 ≤ a * b →
      sub_remaining_gas_with_mult env a b = (.error (overflow_msg a b), env) ∧
      overflow_msg a b ≠ "Remaining gas reach zero") ∧
    (a * b < 2 ^ 64 →
      sub_remaining_gas_with_mult env a b = sub_remaining_gas env (a * b)) := by
  constructor
  · intro hof
    refine ⟨?_, overflow_msg_ne a b⟩
    unfold sub_remaining_gas_with_mult
    rw [if_neg (not_lt.mpr hof)]
  · intro hlt
    unfold sub_remaining_gas_with_mult
    rw [if_pos hlt]

/-- Witness for C5 at the spec's example `a = 2^40`, `b = 2^40` (product
`2^80` overflows) on `env100`, and the in-range product `3 * 5` which
delegates to `subtract`. -/
theorem C5_mult_overflow_witness :
    (sub_remaining_gas_with_mult env100 (2 ^ 40) (2 ^ 40) =
        (.error (overflow_msg (2 ^ 40) (2 ^ 40)), env100) ∧
      overflow_msg (2 ^ 40) (2 ^ 40) ≠ "Remaining gas reach zero") ∧
    sub_remaining_gas_with_mult env100 3 5 = sub_remaining_gas env100 15 := by
  constructor
  · exact (C5_mult_overflow env100 (2 ^ 40) (2 ^ 40)).1 (by norm_num)
  · exact (C5_mult_overflow env100 3 5).2 (by norm_num)

/-- C6: for every bound environment and every value `x`, `set_remaining(x)`
succeeds, writes `x` as the remaining budget and always clears the
exhaustion flag, regardless of the prior stored values (including a set
exhaustion flag or wrongly typed globals). -/
theorem C6_set_clears_exhaustion (env : Env) (x : Nat)
    (hr : env.remaining_points.isSome)
    (he : env.exhausted_points.isSome) :
    set_remaining_points env x =
      (.ok (), { env with remaining_points := some (.I64 x),
                          exhausted_points := some (.I32 0) }) := by
  obtain ⟨wr, hwr⟩ := Option.isSome_iff_exists.mp hr
  obtain ⟨we, hwe⟩ := Option.isSome_iff_exists.mp he
  simp [set_remaining_points, hwr, hwe]

/-- Witness for C6 on `envExh`, whose exhaustion flag is set: writing 42
stores 42 and clears the flag. -/
theorem C6_set_clears_exhaustion_witness :
    set_remaining_points envExh 42 =
      (.ok (), { envExh with remaining_points := some (.I64 42),
                             exhausted_points := some (.I32 0) }) :=
  C6_set_clears_exhaustion envExh 42 rfl rfl

/-- C8: every successful `sub_remaining_gas` ends with the exhaustion flag
cleared (the write-back goes through `set_remaining_points`); in
particular, on a bound environment whose sticky exhaustion flag is set
(effective remaining 0), `subtract(0)` succeeds, overwrites
`remaining_points` with 0, and clears the flag. -/
theorem C8_subtract_clears_flag (env : Env) :
    (∀ gas env1, sub_remaining_gas env gas = (.ok (), env1) →
      env1.exhausted_points = some (.I32 0)) ∧
    (∀ e : Int, env.exhausted_points = some (.I32 e) → 0 < e →
      env.remaining_points.isSome →
      (sub_remaining_gas env 0).1 = .ok () ∧
      (sub_remaining_gas env 0).2.remaining_points = some (.I64 0) ∧
      (sub_remaining_gas env 0).2.exhausted_points = some (.I32 0)) := by
  constructor
  · intro gas env1 h
    unfold sub_remaining_gas at h
    split at h
    · simp at h
    · split at h
      · unfold set_remaining_points at h
        split at h
        · simp at h
        · dsimp only at h
          split at h
          · simp at h
          · rw [Prod.mk.injEq] at h
            rw [← h.2]
      · simp at h
  · intro e he hpos hb
    obtain ⟨w, hw⟩ := Option.isSome_iff_exists.mp hb
    have hg : get_remaining_points env = .ok 0 := by
      simp [get_remaining_points, he, hpos]
    simp [sub_remaining_gas, hg, set_remaining_points, hw, he]

/-- Witness for C8 on `envExh` (stored remaining 7, flag set): a charge of
0 succeeds, stores remaining 0 and clears the flag; the general clause
applied to that very run. -/
theorem C8_subtract_clears_flag_witness :
    (sub_remaining_gas envExh 0).1 = .ok () ∧
    (sub_remaining_gas envExh 0).2.remaining_points = some (.I64 0) ∧
    (sub_remaining_gas envExh 0).2.exhausted_points = some (.I32 0) :=
  (C8_subtract_clears_flag envExh).2 1 rfl (by norm_num) rfl

/-- C1: for an inter-contract call in which `init_call` succeeds, the
callee is started with exactly the caller's remaining gas `g` as read live
from the gas ledger (the hypothesis on `ex` is stated at `g`, and
`call_module` has no guest-supplied cap); when the interpreter returns a
Response, the caller's remaining gas is set to exactly the reported
leftover, which never exceeds `g`; afterwards `finish_call` pops the frame
and its failure is still reported as the result of the call. -/
theorem C1_call_gas_propagation
    (ex : Nat → String → String → String → Except String Response)
    (hspec : InterpSpec ex) (env : Env) (address func param : String)
    (raw_coins : Int) (hc : 0 ≤ raw_coins)
    (g : Nat) (hg : get_remaining_points env = .ok g)
    (moduleBc : String)
    (hi : env.interface.init_call address raw_coins.toNat = .ok moduleBc)
    (resp : Response) (hx : ex g moduleBc func param = .ok resp)
    (hb : env.remaining_points.isSome) :
    resp.remaining_gas ≤ g ∧
    (set_remaining_points env resp.remaining_gas).1 = .ok () ∧
    get_remaining_points (set_remaining_points env resp.remaining_gas).2 =
      .ok resp.remaining_gas ∧
    call_module ex env address func param raw_coins =
      ((match env.interface.finish_call () with
        | .ok _ => .ok resp
        | .error e => .error e),
       (set_remaining_points env resp.remaining_gas).2,
       [.init_call address raw_coins.toNat, .finish_call]) := by
  obtain ⟨wr, hwr⟩ := Option.isSome_iff_exists.mp hb
  obtain ⟨e, he⟩ := get_remaining_points_ok_exhausted env g hg
  have hset : set_remaining_points env resp.remaining_gas =
      (.ok (),
        { env with remaining_points := some (.I64 resp.remaining_gas),
                   exhausted_points := some (.I32 0) }) := by
    simp [set_remaining_points, hwr, he]
  refine ⟨hspec g moduleBc func param resp hx, ?_, ?_, ?_⟩
  · rw [hset]
  · rw [hset]
    simp [get_remaining_points]
  · unfold call_module
    rw [if_neg (not_lt.mpr hc)]
    simp only [hi, hg, hx, hset]
    cases env.interface.finish_call () <;> rfl

/-- Witness for C1: `exec0` started on `env100` (remaining 100) with a
successful `init_call` receives budget 100, returns leftover 50, and the
caller's ledger ends at exactly 50. -/
theorem C1_call_gas_propagation_witness :
    (50 : Nat) ≤ 100 ∧
    (set_remaining_points env100 50).1 = .ok () ∧
    get_remaining_points (set_remaining_points env100 50).2 = .ok 50 ∧
    call_module exec0 env100 "A12to" "main" "" 0 =
      ((match env100.interface.finish_call () with
        | .ok _ => .ok ⟨"", 50⟩
        | .error e => .error e),
       (set_remaining_points env100 50).2,
       [.init_call "A12to" 0, .finish_call]) :=
  C1_call_gas_propagation exec0 exec0_spec env100 "A12to" "main" "" 0
    (by norm_num) 100 rfl "module0" rfl ⟨"", 50⟩ rfl rfl

/-- C2 counterexample: `assembly_script_create_sc` does not charge a
constant cost as its first step. With every configured constant cost and
rate equal to 1 and a bound environment holding 0 remaining gas, the call
(with an empty base64 string at offset 5) still reaches the Interface —
the trace shows `create_module` was invoked — and even succeeds, which is
impossible for a function whose first step charges a positive constant
cost out of a zero budget. -/
theorem C2_counterexample :
    get_remaining_points envZero = .ok 0 ∧
    settings1.metering_set_data_const = 1 ∧
    (assembly_script_create_sc ext0 settings1 envZero 5).2.2 =
      [IfaceCall.create_module []] ∧
    (assembly_script_create_sc ext0 settings1 envZero 5).1 = .ok 1000 :=
  ⟨rfl, rfl, rfl, rfl⟩

/-- C2 (amended): each embedded dispatch function other than
`assembly_script_create_sc` — transfer_coins, transfer_coins_for,
set_data, send_message — charges its constant cost as its first step: if
the constant charge fails, the whole call fails with that very error in
the gas state the failed charge left, without reading any argument and
without any Interface call. `assembly_script_create_sc` is the exception:
it charges no constant cost, its first charge being the per-byte payload
charge (see the counterexample). -/
theorem C2_const_cost_first (s : Settings) (env env1 : Env) (e : String) :
    (sub_remaining_gas env s.metering_transfer = (.error e, env1) →
      ∀ a r : Int,
        assembly_script_transfer_coins s env a r = (.error e, env1, []) ∧
        ∀ f : Int,
          assembly_script_transfer_coins_for s env f a r =
            (.error e, env1, [])) ∧
    (sub_remaining_gas env s.metering_set_data_const = (.error e, env1) →
      ∀ k v : Int,
        assembly_script_set_data s env k v = (.error e, env1, [])) ∧
    (sub_remaining_gas env s.metering_send_message = (.error e, env1) →
      ∀ ta th vsp vst vep vet mg gp rc d : Int,
        assembly_script_send_message s env ta th vsp vst vep vet mg gp rc d =
          (.error e, env1, [])) := by
  refine ⟨?_, ?_, ?_⟩ <;> intro h
  · intro a r
    constructor
    · simp only [assembly_script_transfer_coins, h]
    · intro f
      simp only [assembly_script_transfer_coins_for, h]
  · intro k v
    simp only [assembly_script_set_data, h]
  · intro ta th vsp vst vep vet mg gp rc d
    simp only [assembly_script_send_message, h]

/-- Witness for C2 (amended) on `envZero` (0 gas, every constant cost 1):
all four functions fail with the exhaustion error before anything else. -/
theorem C2_const_cost_first_witness :
    assembly_script_transfer_coins settings1 envZero 9 7 =
      (.error "Remaining gas reach zero", envZero, []) ∧
    assembly_script_transfer_coins_for settings1 envZero 7 9 7 =
      (.error "Remaining gas reach zero", envZero, []) ∧
    assembly_script_set_data settings1 envZero 5 5 =
      (.error "Remaining gas reach zero", envZero, []) ∧
    assembly_script_send_message settings1 envZero 7 9 0 0 0 0 0 0 0 5 =
      (.error "Remaining gas reach zero", envZero, []) := by
  have h := C2_const_cost_first settings1 envZero envZero
    "Remaining gas reach zero"
  exact ⟨(h.1 rfl 9 7).1, (h.1 rfl 9 7).2 7, h.2.1 rfl 5 5,
    h.2.2 rfl 7 9 0 0 0 0 0 0 0 5⟩

/-- C7: after the constant transfer charge succeeds, a negative raw amount
makes `transfer_coins` and `transfer_coins_for` fail with the
negative-amount error while performing no Interface call (empty trace):
the negative value is rejected before reaching the Interface, indeed
before guest memory is even read. -/
theorem C7_negative_amount_rejected (s : Settings) (env env1 : Env)
    (hchg : sub_remaining_gas env s.metering_transfer = (.ok (), env1))
    (raw_amount : Int) (hneg : raw_amount < 0) :
    (∀ a : Int, assembly_script_transfer_coins s env a raw_amount =
      (.error "Negative raw amount.", env1, [])) ∧
    (∀ f a : Int, assembly_script_transfer_coins_for s env f a raw_amount =
      (.error "Negative raw amount.", env1, [])) := by
  constructor
  · intro a
    simp only [assembly_script_transfer_coins, hchg, if_pos hneg]
  · intro f a
    simp only [assembly_script_transfer_coins_for, hchg, if_pos hneg]

/-- Witness for C7: `transfer_coins(env100, addr, -1)` and the `_for`
variant fail with the negative-amount error and an empty Interface
trace. -/
theorem C7_negative_amount_rejected_witness :
    assembly_script_transfer_coins settings1 env100 9 (-1) =
      (.error "Negative raw amount.", env99, []) ∧
    assembly_script_transfer_coins_for settings1 env100 7 9 (-1) =
      (.error "Negative raw amount.", env99, []) := by
  have h := C7_negative_amount_rejected settings1 env100 env99 rfl (-1)
    (by norm_num)
  exact ⟨h.1 9, h.2 7 9⟩

/-- C9: when `transfer_coins` (or `transfer_coins_for`) rejects a negative
raw amount, the constant transfer cost has already been subtracted: on a
bound environment with effective remaining `r ≥ metering_transfer`, the
failed call ends with remaining exactly `r - metering_transfer` (and no
Interface call), so the gas ledger is not rolled back on this validation
error. -/
theorem C9_failed_transfer_still_charged (s : Settings) (env : Env)
    (r : Nat) (hg : get_remaining_points env = .ok r)
    (hle : s.metering_transfer ≤ r) (hb : env.remaining_points.isSome)
    (raw_amount : Int) (hneg : raw_amount < 0) :
    (∀ a : Int,
      (assembly_script_transfer_coins s env a raw_amount).1 =
        .error "Negative raw amount." ∧
      (assembly_script_transfer_coins s env a raw_amount).2.2 = [] ∧
      get_remaining_points
          (assembly_script_transfer_coins s env a raw_amount).2.1 =
        .ok (r - s.metering_transfer)) ∧
    (∀ f a : Int,
      (assembly_script_transfer_coins_for s env f a raw_amount).1 =
        .error "Negative raw amount." ∧
      (assembly_script_transfer_coins_for s env f a raw_amount).2.2 = [] ∧
      get_remaining_points
          (assembly_script_transfer_coins_for s env f a raw_amount).2.1 =
        .ok (r - s.metering_transfer)) := by
  have hchg := sub_remaining_gas_ok env r s.metering_transfer hg hle hb
  constructor
  · intro a
    simp [assembly_script_transfer_coins, hchg, hneg, get_remaining_points]
  · intro f a
    simp [assembly_script_transfer_coins_for, hchg, hneg,
      get_remaining_points]

/-- Witness for C9: on `env100` (budget 100, transfer cost 1) the rejected
negative transfer leaves remaining 99. -/
theorem C9_failed_transfer_still_charged_witness :
    (assembly_script_transfer_coins settings1 env100 9 (-1)).1 =
      .error "Negative raw amount." ∧
    (assembly_script_transfer_coins settings1 env100 9 (-1)).2.2 = [] ∧
    get_remaining_points
        (assembly_script_transfer_coins settings1 env100 9 (-1)).2.1 =
      .ok 99 := by
  have h := C9_failed_transfer_still_charged settings1 env100 100 rfl
    (by decide) rfl (-1) (by norm_num)
  exact h.1 9

/-- C10: after the constant charge succeeds, `send_message` rejects any
`validity_start_thread` outside `0..=255` — not only negative values —
with the invalid-thread error and an empty Interface trace (the rejection
precedes any Interface call and any memory read); likewise for
`validity_end_thread` once the start bounds are in range. -/
theorem C10_send_message_thread_range (s : Settings) (env env1 : Env)
    (hchg : sub_remaining_gas env s.metering_send_message = (.ok (), env1))
    (ta th vsp vst vep vet mg gp rc d : Int) :
    (0 ≤ vsp → (vst < 0 ∨ 255 < vst) →
      assembly_script_send_message s env ta th vsp vst vep vet mg gp rc d =
        (.error "invalid validity start thread", env1, [])) ∧
    (0 ≤ vsp → 0 ≤ vst → vst ≤ 255 → 0 ≤ vep → (vet < 0 ∨ 255 < vet) →
      assembly_script_send_message s env ta th vsp vst vep vet mg gp rc d =
        (.error "invalid validity end thread", env1, [])) := by
  constructor
  · intro h1 h2
    simp only [assembly_script_send_message, hchg, if_neg (not_lt.mpr h1),
      if_pos h2]
  · intro h1 h2 h3 h4 h5
    have hst : ¬ (vst < 0 ∨ 255 < vst) := by
      push_neg
      exact ⟨h2, h3⟩
    simp only [assembly_script_send_message, hchg, if_neg (not_lt.mpr h1),
      if_neg hst, if_neg (not_lt.mpr h4), if_pos h5]

/-- Witness for C10: thread index 256 (non-negative but out of the u8
range) is rejected for both the start and the end bound on `env100`. -/
theorem C10_send_message_thread_range_witness :
    assembly_script_send_message settings1 env100 7 9 0 256 0 0 0 0 0 5 =
      (.error "invalid validity start thread", env99, []) ∧
    assembly_script_send_message settings1 env100 7 9 0 0 0 256 0 0 0 5 =
      (.error "invalid validity end thread", env99, []) := by
  constructor
  · exact (C10_send_message_thread_range settings1 env100 env99 rfl
      7 9 0 256 0 0 0 0 0 5).1 (by norm_num) (by norm_num)
  · exact (C10_send_message_thread_range settings1 env100 env99 rfl
      7 9 0 0 0 256 0 0 0 5).2 (by norm_num) (by norm_num) (by norm_num)
      (by norm_num) (by norm_num)

end Massa
